import Mathlib

/-!
Shallow embedding of `src/google/auth/transport/cpp/tls_offload.cpp`.

The file implements a TLS signing-offload engine on top of OpenSSL: an
ENGINE whose EVP_PKEY methods replace the digest-sign operation with a
thunk (`CustomDigestSign`) that forwards to a caller-supplied `CustomKey`
(the external signer handle), attached to the native RSA/EC key object via
OpenSSL ex-data slots.

Modelling conventions:
- The C file's mutable globals (`EnableLogging`, `rsa_ex_index`,
  `ec_ex_index`, the two custom pkey methods, `custom_engine`) become an
  explicit `Globals` record threaded through the functions; `Globals` also
  carries a ghost counter `initExDataRuns` counting how many times
  `InitExData` has executed.
- Calls into OpenSSL whose outcome is decided outside this translation
  unit (allocation failures, PEM parsing, SSL_CTX installation, ...) are
  resolved by an explicit `Oracle` record describing the environment's
  behaviour for one call.
- Buffers are `List Nat`; a C `size_t*` in/out length is an explicit value
  passed in and returned.
- A null-pointer dereference (undefined behaviour) is modelled by the
  `CRes.crash` result; ordinary fallible calls return `Option`.
- Lines printed to stdout by `LogInfo` are returned explicitly where a
  claim is about logging; `fprintf(stderr, ...)` diagnostics are elided.
-/

/-- OpenSSL numeric identifier for the RSA pkey algorithm (NID_rsaEncryption). -/
def EVP_PKEY_RSA : Nat := 6

/-- OpenSSL numeric identifier for the EC pkey algorithm (NID_X9_62_id_ecPublicKey). -/
def EVP_PKEY_EC : Nat := 408

/-- OpenSSL constant TLS1_3_VERSION = 0x0304. -/
def TLS1_3_VERSION : Nat := 772

/-- Result of one call to an external signer: the return code, the bytes in the
signature output buffer afterwards, and the value of the in/out length. -/
structure SignRes where
  ret : Int
  sig : List Nat
  sigLen : Nat

/-- `CustomKey`: the external signer handle (declared in `tls_offload.h`).
It wraps one signing callback `sign(sig, sig_len, tbs, tbs_len)`. -/
structure CustomKey where
  sign : List Nat → Nat → List Nat → Nat → SignRes

/-- A native RSA key object: all we model is its ex-data table (index ↦ attached pointer). -/
structure RSAKey where
  exData : Int → Option CustomKey

/-- A native EC key object: all we model is its ex-data table. -/
structure ECKey where
  exData : Int → Option CustomKey

/-- A native `EVP_PKEY`: algorithm id plus the underlying RSA or EC object,
and the engine reference installed by `EVP_PKEY_set1_engine`. -/
structure EVP_PKEY_t where
  id : Nat
  rsa : Option RSAKey
  ec : Option ECKey
  engine : Option Unit

/-- An `EVP_PKEY_CTX`: we model only the key it holds (possibly null). -/
structure EVP_PKEY_CTX_t where
  pkey : Option EVP_PKEY_t

/-- An `EVP_MD_CTX`: we model only its pkey context. -/
structure EVP_MD_CTX_t where
  pctx : EVP_PKEY_CTX_t

/-- A custom `EVP_PKEY_METHOD` produced by `MakeCustomMethod`: its algorithm id
and the fact that its digest-sign entry was replaced by the custom thunk. -/
structure Method where
  nid : Nat
  digestSignIsCustom : Bool
  deriving DecidableEq

/-- The C file's mutable globals, plus the ghost counter `initExDataRuns`. -/
structure Globals where
  enableLogging : Bool
  rsa_ex_index : Int
  ec_ex_index : Int
  custom_rsa_pkey_method : Option Method
  custom_ec_pkey_method : Option Method
  custom_engine : Option Unit
  initExDataRuns : Nat

/-- Process-start values of the globals (`EnableLogging = false`,
ex-data indices `-1`, method and engine pointers null). -/
def initialGlobals : Globals :=
  { enableLogging := false
    rsa_ex_index := -1
    ec_ex_index := -1
    custom_rsa_pkey_method := none
    custom_ec_pkey_method := none
    custom_engine := none
    initExDataRuns := 0 }

/-- An X509 certificate as far as this code inspects it: the public key
recovered by `i2d_X509_PUBKEY` / `d2i_X509_PUBKEY` / `X509_PUBKEY_get`. -/
structure X509Cert where
  pubkey : EVP_PKEY_t

/-- Environment behaviour for one `OffloadSigning` call: outcomes of the
OpenSSL calls whose success is decided outside this translation unit. -/
structure Oracle where
  rsaNewIdx : Int
  ecNewIdx : Int
  methNewOk : Nat → Bool
  methFindOk : Nat → Bool
  engineNewOk : Bool
  engineSetPkeyMethsOk : Bool
  bioNewOk : Bool
  pemParse : String → Option X509Cert
  i2dPubkeyOk : Bool
  d2iPubkeyOk : Bool
  pubkeyGetOk : Bool
  usePrivateKeyOk : Bool
  useCertificateOk : Bool
  setMinProtoOk : Bool

/-- Result of C code that may hit undefined behaviour: either a crash
(null-pointer dereference) or a normal value. -/
inductive CRes (α : Type) where
  | crash : CRes α
  | ok : α → CRes α

/-- `LogInfo(message)`: prints to stdout when `EnableLogging` is set.
We return the list of lines emitted. -/
def LogInfo (st : Globals) (message : String) : List String :=
  if st.enableLogging then ["tls_offload.cpp: " ++ message ++ "...."] else []

/-- `EngineGetMethods` result: the return value, what was written through
`out_nids` (enumeration mode), and what was written through `out_method`. -/
structure GetMethodsResult where
  ret : Int
  nids : Option (List Nat)
  method : Option (Option Method)

/-- `EngineGetMethods(e, out_method, out_nids, nid)`: with `out_method` null it
enumerates the supported nids `{EVP_PKEY_EC, EVP_PKEY_RSA}` and returns their
count; otherwise it returns the matching custom method (1) or 0. -/
def EngineGetMethods (st : Globals) (outMethodIsNull : Bool) (nid : Nat) : GetMethodsResult :=
  if outMethodIsNull then
    { ret := 2, nids := some [EVP_PKEY_EC, EVP_PKEY_RSA], method := none }
  else if nid = EVP_PKEY_EC then
    { ret := 1, nids := none, method := some st.custom_ec_pkey_method }
  else if nid = EVP_PKEY_RSA then
    { ret := 1, nids := none, method := some st.custom_rsa_pkey_method }
  else
    { ret := 0, nids := none, method := none }

/-- `InitExData()`: allocates the two ex-data indices and fails when either is
negative. The ghost counter `initExDataRuns` records the execution. -/
def InitExData (o : Oracle) (st : Globals) : Bool × Globals :=
  let st1 : Globals :=
    { st with
      rsa_ex_index := o.rsaNewIdx
      ec_ex_index := o.ecNewIdx
      initExDataRuns := st.initExDataRuns + 1 }
  if st1.rsa_ex_index < 0 ∨ st1.ec_ex_index < 0 then (false, st1) else (true, st1)

/-- `SetCustomKey(pkey, key)`: attaches `key` to the underlying RSA/EC object's
ex-data slot for its family; fails (C `false`, here `none`) when the family is
neither RSA nor EC or the underlying object is null. -/
def SetCustomKey (st : Globals) (pkey : EVP_PKEY_t) (key : CustomKey) : Option EVP_PKEY_t :=
  if pkey.id = EVP_PKEY_RSA then
    match pkey.rsa with
    | none => none
    | some rsa =>
        some { pkey with
               rsa := some ⟨fun j => if j = st.rsa_ex_index then some key else rsa.exData j⟩ }
  else if pkey.id = EVP_PKEY_EC then
    match pkey.ec with
    | none => none
    | some ec =>
        some { pkey with
               ec := some ⟨fun j => if j = st.ec_ex_index then some key else ec.exData j⟩ }
  else
    none

/-- `GetCustomKey(pkey)`: reads the ex-data slot of the pkey's RSA/EC object;
null when the family is unsupported, the object is null, or nothing is attached. -/
def GetCustomKey (st : Globals) (pkey : EVP_PKEY_t) : Option CustomKey :=
  if pkey.id = EVP_PKEY_RSA then
    match pkey.rsa with
    | none => none
    | some rsa => rsa.exData st.rsa_ex_index
  else if pkey.id = EVP_PKEY_EC then
    match pkey.ec with
    | none => none
    | some ec => ec.exData st.ec_ex_index
  else
    none

/-- Output of the signing thunk: return code, signature buffer contents, the
in/out length value, and the stdout lines it printed. -/
structure ThunkOut where
  ret : Int
  sig : List Nat
  sigLen : Nat
  log : List String

/-- `CustomDigestSign(ctx, sig, sig_len, tbs, tbs_len)`: the digest-sign thunk.
Resolves the pkey from the signing context and its attached `CustomKey`;
returns 0 on either failure, otherwise forwards verbatim to `key->Sign`. -/
def CustomDigestSign (st : Globals) (ctx : EVP_MD_CTX_t) (sig : List Nat) (sigLen : Nat)
    (tbs : List Nat) (tbsLen : Nat) : ThunkOut :=
  let l1 := LogInfo st "calling CustomDigestSign"
  match ctx.pctx.pkey with
  | none => { ret := 0, sig := sig, sigLen := sigLen, log := l1 }
  | some pkey =>
    match GetCustomKey st pkey with
    | none => { ret := 0, sig := sig, sigLen := sigLen, log := l1 }
    | some key =>
      let l2 :=
        if st.enableLogging then
          ["tls_offload.cpp: before calling key->Sign, sig len: " ++ toString sigLen]
        else []
      let r := key.sign sig sigLen tbs tbsLen
      let l3 :=
        if st.enableLogging then
          ["tls_offload.cpp: after calling key->Sign, sig len: " ++ toString r.sigLen
             ++ ", result: " ++ toString r.ret]
        else []
      { ret := r.ret, sig := r.sig, sigLen := r.sigLen, log := l1 ++ l2 ++ l3 }

/-- `MakeCustomMethod(nid)`: clones the default pkey method for `nid` (copying
init, cleanup and ctrl), then replaces digest-sign with `CustomDigestSign`.
Fails when `EVP_PKEY_meth_new` or `EVP_PKEY_meth_find` fails. -/
def MakeCustomMethod (o : Oracle) (nid : Nat) : Option Method :=
  if o.methNewOk nid then
    if o.methFindOk nid then some { nid := nid, digestSignIsCustom := true }
    else none
  else none

/-- `InitEngine()`: builds the two custom pkey methods (storing the results in
the globals before checking them, as the C code does), then a fresh `ENGINE`
registered with `EngineGetMethods`. -/
def InitEngine (o : Oracle) (st : Globals) : Bool × Globals :=
  let st1 : Globals :=
    { st with
      custom_rsa_pkey_method := MakeCustomMethod o EVP_PKEY_RSA
      custom_ec_pkey_method := MakeCustomMethod o EVP_PKEY_EC }
  if st1.custom_rsa_pkey_method = none ∨ st1.custom_ec_pkey_method = none then (false, st1)
  else if o.engineNewOk then
    if o.engineSetPkeyMethsOk then (true, { st1 with custom_engine := some () })
    else (false, st1)
  else (false, st1)

/-- `EVP_PKEY_set1_engine(pkey, custom_engine)` as OpenSSL implements it:
fails when the engine is null or when the engine's pkey-method callback
(`EngineGetMethods`) offers no method for the pkey's algorithm; on success the
pkey holds a reference to the engine. -/
def EVP_PKEY_set1_engine (st : Globals) (pkey : EVP_PKEY_t) : Option EVP_PKEY_t :=
  match st.custom_engine with
  | none => none
  | some _ =>
    match EngineGetMethods st false pkey.id with
    | { ret := 1, nids := _, method := some (some _) } => some { pkey with engine := some () }
    | _ => none

/-- `ConfigureCertAndCustomKey(custom_key, cert)`: re-encodes the certificate's
public key into a fresh `EVP_PKEY`, associates it with the custom engine and
attaches the `CustomKey`. The C code receives `cert` straight from
`PEM_read_bio_X509` without a null check; `X509_get_X509_PUBKEY(cert)`
dereferences it, so a null certificate is a crash. -/
def ConfigureCertAndCustomKey (o : Oracle) (st : Globals) (custom_key : CustomKey)
    (cert : Option X509Cert) : CRes (Option EVP_PKEY_t) :=
  match cert with
  | none => CRes.crash
  | some c =>
    if o.i2dPubkeyOk then
      if o.d2iPubkeyOk then
        if o.pubkeyGetOk then
          match EVP_PKEY_set1_engine st c.pubkey with
          | none => CRes.ok none
          | some pk1 =>
            match SetCustomKey st pk1 custom_key with
            | none => CRes.ok none
            | some pk2 => CRes.ok (some pk2)
        else CRes.ok none
      else CRes.ok none
    else CRes.ok none

/-- An `SSL_CTX` as far as this code mutates it: installed private key,
installed certificate, and minimum protocol version. -/
structure SSL_CTX_t where
  privKey : Option EVP_PKEY_t
  cert : Option X509Cert
  minProto : Nat

/-- `ServeTLS(custom_key, cert, ctx)`: parses the PEM certificate, builds the
wrapped key, installs key and certificate into the context and raises the
minimum protocol version to TLS 1.3. Returns the success flag and the context
afterwards. -/
def ServeTLS (o : Oracle) (st : Globals) (custom_key : CustomKey) (cert : String)
    (ctx : SSL_CTX_t) : CRes (Bool × SSL_CTX_t) :=
  if o.bioNewOk then
    let x509 := o.pemParse cert
    match ConfigureCertAndCustomKey o st custom_key x509 with
    | CRes.crash => CRes.crash
    | CRes.ok none => CRes.ok (false, ctx)
    | CRes.ok (some wrapped_key) =>
      if o.usePrivateKeyOk then
        let ctx1 : SSL_CTX_t := { ctx with privKey := some wrapped_key }
        if o.useCertificateOk then
          let ctx2 : SSL_CTX_t := { ctx1 with cert := x509 }
          if o.setMinProtoOk then CRes.ok (true, { ctx2 with minProto := TLS1_3_VERSION })
          else CRes.ok (false, ctx2)
        else CRes.ok (false, ctx1)
      else CRes.ok (false, ctx)
  else CRes.ok (false, ctx)

/-- The logging toggle as computed at the top of `OffloadSigning`:
`EnableLogging = (getenv(...) == nullptr) ? false : true`. -/
def computeEnableLogging (val : Option String) : Bool :=
  match val with
  | none => false
  | some _ => true

/-- Outcome of one `OffloadSigning` call: return value, globals afterwards,
TLS context afterwards (or a crash). -/
abbrev OffOut : Type := CRes (Int × Globals × SSL_CTX_t)

/-- The tail of `OffloadSigning` after the lazy-initialization block:
run `ServeTLS` and turn its flag into the 0/1 return value. -/
def OffloadServe (o : Oracle) (st : Globals) (custom_key : CustomKey) (cert : String)
    (ctx : SSL_CTX_t) : OffOut :=
  match ServeTLS o st custom_key cert ctx with
  | CRes.crash => CRes.crash
  | CRes.ok (true, ctx1) => CRes.ok (1, st, ctx1)
  | CRes.ok (false, ctx1) => CRes.ok (0, st, ctx1)

/-- `OffloadSigning(custom_key, cert, ctx)`: recomputes `EnableLogging` from the
environment, lazily runs `InitExData`/`InitEngine` when `custom_engine` is
null (returning 0 when either fails), then runs `ServeTLS`. -/
def OffloadSigning (o : Oracle) (env : Option String) (custom_key : CustomKey) (cert : String)
    (ctx : SSL_CTX_t) (st0 : Globals) : OffOut :=
  let st : Globals := { st0 with enableLogging := computeEnableLogging env }
  if st.custom_engine.isSome then OffloadServe o st custom_key cert ctx
  else
    let r1 := InitExData o st
    if r1.1 then
      let r2 := InitEngine o r1.2
      if r2.1 then OffloadServe o r2.2 custom_key cert ctx
      else CRes.ok (0, r2.2, ctx)
    else CRes.ok (0, r1.2, ctx)

/-- `CreateCustomKey(sign_func)`: allocates the handle; logs (gated twice on
`EnableLogging`: once at the call site, once inside `LogInfo`). Returns the
key and the stdout lines. -/
def CreateCustomKey (st : Globals) (sign_func : List Nat → Nat → List Nat → Nat → SignRes) :
    CustomKey × List String :=
  (⟨sign_func⟩, if st.enableLogging then LogInfo st "In CreateCustomKey\n" else [])

/-- `DestroyCustomKey(key)`: frees the handle; returns the stdout lines. -/
def DestroyCustomKey (st : Globals) (_key : CustomKey) : List String :=
  if st.enableLogging then LogInfo st "In DestroyCustomKey\n" else []

/-- Return value of an `OffloadSigning` outcome, `none` on crash. -/
def retOf (r : OffOut) : Option Int :=
  match r with
  | CRes.crash => none
  | CRes.ok (v, _, _) => some v

/-- Globals after an `OffloadSigning` outcome, `none` on crash. -/
def stOf (r : OffOut) : Option Globals :=
  match r with
  | CRes.crash => none
  | CRes.ok (_, s, _) => some s

/-- TLS context after an `OffloadSigning` outcome, `none` on crash. -/
def ctxOf (r : OffOut) : Option SSL_CTX_t :=
  match r with
  | CRes.crash => none
  | CRes.ok (_, _, c) => some c

/-! Concrete fixtures used by witnesses and counterexamples. -/

/-- A concrete external signer handle returning a fixed two-byte signature. -/
def hAW : CustomKey := ⟨fun _ _ _ _ => ⟨1, [9, 9], 2⟩⟩

/-- A second, distinct concrete external signer handle. -/
def hBW : CustomKey := ⟨fun _ _ _ _ => ⟨1, [8], 1⟩⟩

/-- Globals after a fully successful lazy initialization (indices 1 and 2). -/
def gReady : Globals :=
  { enableLogging := false
    rsa_ex_index := 1
    ec_ex_index := 2
    custom_rsa_pkey_method := some ⟨EVP_PKEY_RSA, true⟩
    custom_ec_pkey_method := some ⟨EVP_PKEY_EC, true⟩
    custom_engine := some ()
    initExDataRuns := 1 }

/-- A concrete RSA-family pkey with empty ex-data. -/
def pkAW : EVP_PKEY_t :=
  { id := EVP_PKEY_RSA, rsa := some ⟨fun _ => none⟩, ec := none, engine := none }

/-- A concrete EC-family pkey with empty ex-data. -/
def pkBW : EVP_PKEY_t :=
  { id := EVP_PKEY_EC, rsa := none, ec := some ⟨fun _ => none⟩, engine := none }

/-- `pkAW` after attaching `hAW`. -/
def pkAW' : EVP_PKEY_t :=
  match SetCustomKey gReady pkAW hAW with
  | some p => p
  | none => pkAW

/-- `pkBW` after attaching `hBW`. -/
def pkBW' : EVP_PKEY_t :=
  match SetCustomKey gReady pkBW hBW with
  | some p => p
  | none => pkBW

/-- An empty TLS context. -/
def ctx0 : SSL_CTX_t := { privKey := none, cert := none, minProto := 0 }

/-- A concrete EC-family certificate (its public key is `pkBW`). -/
def certECW : X509Cert := ⟨pkBW⟩

/-- A concrete certificate whose public-key family is neither RSA nor EC. -/
def certXW : X509Cert := ⟨{ id := 0, rsa := none, ec := none, engine := none }⟩

/-- An oracle where every external call succeeds and PEM parsing yields the
EC certificate `certECW`. -/
def oGoodEC : Oracle :=
  { rsaNewIdx := 1
    ecNewIdx := 2
    methNewOk := fun _ => true
    methFindOk := fun _ => true
    engineNewOk := true
    engineSetPkeyMethsOk := true
    bioNewOk := true
    pemParse := fun _ => some certECW
    i2dPubkeyOk := true
    d2iPubkeyOk := true
    pubkeyGetOk := true
    usePrivateKeyOk := true
    useCertificateOk := true
    setMinProtoOk := true }

/-- An oracle where ex-data allocation succeeds but `ENGINE_new` fails, and
PEM parsing yields null. -/
def oInitFail : Oracle :=
  { oGoodEC with engineNewOk := false, pemParse := fun _ => none }

/-- Globals after a fully successful `OffloadSigning` call whose environment
variable is absent. -/
def c7st : Globals :=
  match stOf (OffloadSigning oGoodEC none hAW "cert" ctx0 gReady) with
  | some s => s
  | none => gReady

/-- Globals after a successful `OffloadSigning` call whose environment variable
is present but empty. -/
def c7stEmpty : Globals :=
  match stOf (OffloadSigning oGoodEC (some "") hAW "cert" ctx0 gReady) with
  | some s => s
  | none => gReady

/-- Globals after a successful call with the variable set to "x". -/
def c10st : Globals :=
  match stOf (OffloadSigning oGoodEC (some "x") hAW "cert" ctx0 gReady) with
  | some s => s
  | none => gReady

/-- An all-succeeding oracle whose PEM parse nevertheless returns null
(a malformed certificate string). -/
def oBadPem : Oracle := { oGoodEC with pemParse := fun _ => none }

/-- Globals after a first call in which `InitExData` succeeded but
`ENGINE_new` failed. -/
def c6st1 : Globals :=
  match stOf (OffloadSigning oInitFail none hAW "cert" ctx0 initialGlobals) with
  | some s => s
  | none => initialGlobals

/-- Globals after a second, fully successful call following that failure. -/
def c6st2 : Globals :=
  match stOf (OffloadSigning oGoodEC none hAW "cert" ctx0 c6st1) with
  | some s => s
  | none => c6st1

/-- Globals after a successful call starting from already-initialized globals. -/
def c6gst : Globals :=
  match stOf (OffloadSigning oGoodEC (some "v") hBW "cert" ctx0 gReady) with
  | some s => s
  | none => gReady

/-- An all-succeeding oracle whose PEM parse yields the certificate with an
unsupported public-key family. -/
def oGoodX : Oracle := { oGoodEC with pemParse := fun _ => some certXW }

/-- The outcome of a concrete, fully successful bind. -/
def c3res : OffOut := OffloadSigning oGoodEC (some "log") hAW "mycert" ctx0 gReady

/-- The globals of that outcome. -/
def c3st : Globals :=
  match c3res with
  | CRes.ok (_, s, _) => s
  | CRes.crash => gReady

/-- The context of that outcome. -/
def c3ctx : SSL_CTX_t :=
  match c3res with
  | CRes.ok (_, _, c) => c
  | CRes.crash => ctx0

/-- A successful `SetCustomKey` attaches the handle exactly where `GetCustomKey`
reads it back. -/
theorem getCustomKey_after_set (st : Globals) (pk : EVP_PKEY_t) (key : CustomKey)
    (pk' : EVP_PKEY_t) (h : SetCustomKey st pk key = some pk') :
    GetCustomKey st pk' = some key := by
  unfold SetCustomKey at h
  by_cases hrsa : pk.id = EVP_PKEY_RSA
  · rw [if_pos hrsa] at h
    match hr : pk.rsa with
    | none => rw [hr] at h; exact absurd h (by simp)
    | some rsa =>
      rw [hr] at h
      have hpk' : pk' = { pk with
          rsa := some ⟨fun j => if j = st.rsa_ex_index then some key else rsa.exData j⟩ } := by
        exact (Option.some_injective _ h).symm
      subst hpk'
      simp [GetCustomKey, hrsa]
  · rw [if_neg hrsa] at h
    by_cases hec : pk.id = EVP_PKEY_EC
    · rw [if_pos hec] at h
      match he : pk.ec with
      | none => rw [he] at h; exact absurd h (by simp)
      | some ec =>
        rw [he] at h
        have hpk' : pk' = { pk with
            ec := some ⟨fun j => if j = st.ec_ex_index then some key else ec.exData j⟩ } := by
          exact (Option.some_injective _ h).symm
        subst hpk'
        simp [GetCustomKey, hrsa, hec, EVP_PKEY_RSA, EVP_PKEY_EC]
    · rw [if_neg hec] at h
      exact absurd h (by simp)

/-- C1: the signing thunk returns 0 with the output buffer and output length
untouched when the pkey or its attached `CustomKey` cannot be resolved;
otherwise it forwards the very same buffers and lengths to the handle's sign
callback and returns exactly its result. -/
theorem customDigestSign_contract (st : Globals) (ctx : EVP_MD_CTX_t) (sig : List Nat)
    (sigLen : Nat) (tbs : List Nat) (tbsLen : Nat) :
    ((ctx.pctx.pkey = none ∨ ∃ pk, ctx.pctx.pkey = some pk ∧ GetCustomKey st pk = none) →
        (CustomDigestSign st ctx sig sigLen tbs tbsLen).ret = 0 ∧
        (CustomDigestSign st ctx sig sigLen tbs tbsLen).sig = sig ∧
        (CustomDigestSign st ctx sig sigLen tbs tbsLen).sigLen = sigLen) ∧
    (∀ pk key, ctx.pctx.pkey = some pk → GetCustomKey st pk = some key →
        (CustomDigestSign st ctx sig sigLen tbs tbsLen).ret
            = (key.sign sig sigLen tbs tbsLen).ret ∧
        (CustomDigestSign st ctx sig sigLen tbs tbsLen).sig
            = (key.sign sig sigLen tbs tbsLen).sig ∧
        (CustomDigestSign st ctx sig sigLen tbs tbsLen).sigLen
            = (key.sign sig sigLen tbs tbsLen).sigLen) := by
  constructor
  · rintro (hnone | ⟨pk, hpk, hkey⟩)
    · simp [CustomDigestSign, hnone]
    · simp [CustomDigestSign, hpk, hkey]
  · intro pk key hpk hkey
    simp [CustomDigestSign, hpk, hkey]

/-- C1 witness: a context holding no pkey makes the thunk return 0 with buffer
`[7]` and length 3 untouched. -/
theorem customDigestSign_contract_witness :
    (CustomDigestSign initialGlobals ⟨⟨none⟩⟩ [7] 3 [1] 1).ret = 0 ∧
    (CustomDigestSign initialGlobals ⟨⟨none⟩⟩ [7] 3 [1] 1).sig = [7] ∧
    (CustomDigestSign initialGlobals ⟨⟨none⟩⟩ [7] 3 [1] 1).sigLen = 3 :=
  (customDigestSign_contract initialGlobals ⟨⟨none⟩⟩ [7] 3 [1] 1).1 (Or.inl rfl)

/-- C9: with two key objects each bound to its own handle, a signing context
holding key A resolves exactly handle A, and the thunk's result is handle A's
result — handle B plays no part. -/
theorem signing_isolation (st : Globals) (pkA pkB : EVP_PKEY_t) (hA hB : CustomKey)
    (pkA1 pkB1 : EVP_PKEY_t)
    (hsetA : SetCustomKey st pkA hA = some pkA1)
    (_hsetB : SetCustomKey st pkB hB = some pkB1)
    (ctx : EVP_MD_CTX_t) (hctx : ctx.pctx.pkey = some pkA1)
    (sig : List Nat) (sigLen : Nat) (tbs : List Nat) (tbsLen : Nat) :
    GetCustomKey st pkA1 = some hA ∧
    (CustomDigestSign st ctx sig sigLen tbs tbsLen).ret = (hA.sign sig sigLen tbs tbsLen).ret ∧
    (CustomDigestSign st ctx sig sigLen tbs tbsLen).sig = (hA.sign sig sigLen tbs tbsLen).sig ∧
    (CustomDigestSign st ctx sig sigLen tbs tbsLen).sigLen
        = (hA.sign sig sigLen tbs tbsLen).sigLen := by
  have hg := getCustomKey_after_set st pkA hA pkA1 hsetA
  refine ⟨hg, ?_⟩
  simp [CustomDigestSign, hctx, hg]

/-- C9 witness: concrete RSA/EC keys bound to the two concrete handles; the
thunk on the context holding key A returns handle A's fixed signature. -/
theorem signing_isolation_witness :
    GetCustomKey gReady pkAW' = some hAW ∧
    (CustomDigestSign gReady ⟨⟨some pkAW'⟩⟩ [0] 1 [5] 1).ret = (hAW.sign [0] 1 [5] 1).ret ∧
    (CustomDigestSign gReady ⟨⟨some pkAW'⟩⟩ [0] 1 [5] 1).sig = (hAW.sign [0] 1 [5] 1).sig ∧
    (CustomDigestSign gReady ⟨⟨some pkAW'⟩⟩ [0] 1 [5] 1).sigLen = (hAW.sign [0] 1 [5] 1).sigLen :=
  signing_isolation gReady pkAW pkBW hAW hBW pkAW' pkBW' rfl rfl ⟨⟨some pkAW'⟩⟩ rfl [0] 1 [5] 1

/-- `computeEnableLogging` is presence-of-variable: `isSome` of the lookup. -/
theorem computeEnableLogging_eq_isSome (val : Option String) :
    computeEnableLogging val = val.isSome := by
  cases val <;> rfl

/-- C8: the engine's pkey-method discovery callback enumerates exactly
`[EVP_PKEY_EC, EVP_PKEY_RSA]` with count 2 when asked with no target, hands out
the matching stored method with return 1 for the EC and RSA targets, and
returns 0 storing nothing for every other target. -/
theorem engineGetMethods_contract (st : Globals) :
    (∀ nid, EngineGetMethods st true nid
        = { ret := 2, nids := some [EVP_PKEY_EC, EVP_PKEY_RSA], method := none }) ∧
    EngineGetMethods st false EVP_PKEY_EC
        = { ret := 1, nids := none, method := some st.custom_ec_pkey_method } ∧
    EngineGetMethods st false EVP_PKEY_RSA
        = { ret := 1, nids := none, method := some st.custom_rsa_pkey_method } ∧
    (∀ nid, nid ≠ EVP_PKEY_EC → nid ≠ EVP_PKEY_RSA →
        EngineGetMethods st false nid = { ret := 0, nids := none, method := none }) := by
  refine ⟨fun nid => rfl, rfl, ?_, fun nid h1 h2 => by simp [EngineGetMethods, h1, h2]⟩
  simp [EngineGetMethods, EVP_PKEY_RSA, EVP_PKEY_EC]

/-- C8 witness: target nid 0 is unsupported, so the callback returns 0 and
stores no method. -/
theorem engineGetMethods_contract_witness :
    EngineGetMethods gReady false 0 = { ret := 0, nids := none, method := none } :=
  (engineGetMethods_contract gReady).2.2.2 0 (by decide) (by decide)

/-- C7 counterexample: with the environment variable absent, the call leaves
verbose logging disabled — the claim's "absent ... enables it" is false. -/
theorem env_absent_disables_logging : c7st.enableLogging = false := rfl

/-- The globals reported by `OffloadServe` are exactly the globals it was
given (`ServeTLS` does not touch the globals). -/
theorem stOf_OffloadServe (o : Oracle) (st : Globals) (key : CustomKey) (cert : String)
    (ctx : SSL_CTX_t) (st' : Globals)
    (h : stOf (OffloadServe o st key cert ctx) = some st') : st' = st := by
  unfold OffloadServe at h
  split at h
  · simp [stOf] at h
  · simp [stOf] at h; exact h.symm
  · simp [stOf] at h; exact h.symm

/-- `InitExData` does not change the logging flag. -/
theorem InitExData_enableLogging (o : Oracle) (st : Globals) :
    (InitExData o st).2.enableLogging = st.enableLogging := by
  simp only [InitExData]; split <;> rfl

/-- `InitExData` does not change the engine pointer. -/
theorem InitExData_custom_engine (o : Oracle) (st : Globals) :
    (InitExData o st).2.custom_engine = st.custom_engine := by
  simp only [InitExData]; split <;> rfl

/-- `InitEngine` does not change the logging flag. -/
theorem InitEngine_enableLogging (o : Oracle) (st : Globals) :
    (InitEngine o st).2.enableLogging = st.enableLogging := by
  simp only [InitEngine]
  repeat' split
  all_goals rfl

/-- `InitExData` increments the ghost run counter by one. -/
theorem InitExData_initExDataRuns (o : Oracle) (st : Globals) :
    (InitExData o st).2.initExDataRuns = st.initExDataRuns + 1 := by
  simp only [InitExData]; split <;> rfl

/-- `InitEngine` does not change the ghost run counter. -/
theorem InitEngine_initExDataRuns (o : Oracle) (st : Globals) :
    (InitEngine o st).2.initExDataRuns = st.initExDataRuns := by
  simp only [InitEngine]
  repeat' split
  all_goals rfl

/-- Shared helper: after any non-crashing `OffloadSigning` call the logging
flag is exactly what the call recomputed from the environment. -/
theorem enableLogging_after_offload (o : Oracle) (env : Option String) (key : CustomKey)
    (cert : String) (ctx : SSL_CTX_t) (st : Globals) (st' : Globals)
    (h : stOf (OffloadSigning o env key cert ctx st) = some st') :
    st'.enableLogging = computeEnableLogging env := by
  simp only [OffloadSigning] at h
  split at h
  · rw [stOf_OffloadServe _ _ _ _ _ _ h]
  · split at h
    · split at h
      · rw [stOf_OffloadServe _ _ _ _ _ _ h, InitEngine_enableLogging, InitExData_enableLogging]
      · simp only [stOf] at h
        rw [← Option.some_injective _ h, InitEngine_enableLogging, InitExData_enableLogging]
    · simp only [stOf] at h
      rw [← Option.some_injective _ h, InitExData_enableLogging]

/-- C7 (amended): after any non-crashing `OffloadSigning` call, the logging
flag equals presence of the environment variable: any present value (empty
included) enables logging, absence disables it. -/
theorem logging_gated_by_presence (o : Oracle) (env : Option String) (key : CustomKey)
    (cert : String) (ctx : SSL_CTX_t) (st : Globals) (st' : Globals)
    (h : stOf (OffloadSigning o env key cert ctx st) = some st') :
    st'.enableLogging = env.isSome := by
  rw [enableLogging_after_offload o env key cert ctx st st' h, computeEnableLogging_eq_isSome]

/-- C7 witness: a present-but-empty value enables logging. -/
theorem logging_gated_by_presence_witness : c7stEmpty.enableLogging = (some "").isSome :=
  logging_gated_by_presence oGoodEC (some "") hAW "cert" ctx0 gReady c7stEmpty rfl

/-- C10: the logging flag starts false, every `OffloadSigning` call recomputes
it from the environment (whatever its prior value), and the lines emitted by
the signing thunk, `CreateCustomKey` and `DestroyCustomKey` are gated by the
flag as most recently recomputed. -/
theorem logging_flag_dynamics :
    initialGlobals.enableLogging = false ∧
    (∀ o env key cert ctx st st', stOf (OffloadSigning o env key cert ctx st) = some st' →
        st'.enableLogging = computeEnableLogging env) ∧
    (∀ st ctx sig sigLen tbs tbsLen,
        ((CustomDigestSign st ctx sig sigLen tbs tbsLen).log ≠ [] ↔ st.enableLogging = true)) ∧
    (∀ st f, ((CreateCustomKey st f).2 ≠ [] ↔ st.enableLogging = true)) ∧
    (∀ st k, (DestroyCustomKey st k ≠ [] ↔ st.enableLogging = true)) := by
  refine ⟨rfl, ?_, ?_, ?_, ?_⟩
  · exact fun o env key cert ctx st st' h =>
      enableLogging_after_offload o env key cert ctx st st' h
  · intro st ctx sig sigLen tbs tbsLen
    cases hE : st.enableLogging
    · rcases hpk : ctx.pctx.pkey with _ | pk
      · simp [CustomDigestSign, LogInfo, hE, hpk]
      · rcases hk : GetCustomKey st pk with _ | key
        · simp [CustomDigestSign, LogInfo, hE, hpk, hk]
        · simp [CustomDigestSign, LogInfo, hE, hpk, hk]
    · rcases hpk : ctx.pctx.pkey with _ | pk
      · simp [CustomDigestSign, LogInfo, hE, hpk]
      · rcases hk : GetCustomKey st pk with _ | key
        · simp [CustomDigestSign, LogInfo, hE, hpk, hk]
        · simp [CustomDigestSign, LogInfo, hE, hpk, hk]
  · intro st f
    cases hE : st.enableLogging <;> simp [CreateCustomKey, LogInfo, hE]
  · intro st k
    cases hE : st.enableLogging <;> simp [DestroyCustomKey, LogInfo, hE]

/-- C10 witness: after the concrete call with the variable set to "x", the flag
is exactly what the call recomputed. -/
theorem logging_flag_dynamics_witness : c10st.enableLogging = computeEnableLogging (some "x") :=
  logging_flag_dynamics.2.1 oGoodEC (some "x") hAW "cert" ctx0 gReady c10st rfl

/-- C2 (failing input): with the engine already initialized and every external
call succeeding, a certificate string that fails PEM parsing does not make
`OffloadSigning` return 0 — the null parse result is dereferenced
(`X509_get_X509_PUBKEY` on a null `X509*`), modelled as a crash. -/
theorem offloadSigning_crash_on_malformed_cert :
    OffloadSigning oBadPem (some "1") hAW "not a pem" ctx0 gReady = CRes.crash := rfl

/-- C5 (failing input): `ServeTLS` passes the null result of
`PEM_read_bio_X509` straight into `ConfigureCertAndCustomKey`, which
dereferences it — a crash, not a clean bind failure. -/
theorem serveTLS_crash_on_malformed_cert :
    ServeTLS oBadPem gReady hBW "-----BEGIN CERTIFICATE-----garbage" ctx0 = CRes.crash := rfl

/-- C6 counterexample: the first call runs `InitExData` (counter 1) but engine
construction fails, leaving `custom_engine` null; the next call therefore runs
`InitExData` a second time (counter 2) even though it later succeeds — the
claimed "never runs twice" is false. -/
theorem initExData_runs_twice :
    c6st1.initExDataRuns = 1 ∧ c6st1.custom_engine = none ∧
    c6st2.initExDataRuns = 2 ∧ c6st2.custom_engine = some () :=
  ⟨rfl, rfl, rfl, rfl⟩

/-- C6 (amended): once an initialization attempt has fully succeeded
(`custom_engine` set), a later `OffloadSigning` call never runs `InitExData`
again: the run counter, both slot indices and the engine pointer are
unchanged. -/
theorem initExData_guarded_after_success (o : Oracle) (env : Option String) (key : CustomKey)
    (cert : String) (ctx : SSL_CTX_t) (st : Globals) (st' : Globals)
    (hinit : st.custom_engine.isSome)
    (h : stOf (OffloadSigning o env key cert ctx st) = some st') :
    st'.initExDataRuns = st.initExDataRuns ∧ st'.rsa_ex_index = st.rsa_ex_index ∧
    st'.ec_ex_index = st.ec_ex_index ∧ st'.custom_engine = st.custom_engine := by
  simp only [OffloadSigning] at h
  split at h
  · rw [stOf_OffloadServe _ _ _ _ _ _ h]
    exact ⟨rfl, rfl, rfl, rfl⟩
  · rename_i hneg
    exact absurd hinit hneg

/-- C6 witness: starting from the initialized globals `gReady`, a further call
leaves counter, indices and engine untouched. -/
theorem initExData_guarded_after_success_witness :
    c6gst.initExDataRuns = gReady.initExDataRuns ∧ c6gst.rsa_ex_index = gReady.rsa_ex_index ∧
    c6gst.ec_ex_index = gReady.ec_ex_index ∧ c6gst.custom_engine = gReady.custom_engine :=
  initExData_guarded_after_success oGoodEC (some "v") hBW "cert" ctx0 gReady c6gst rfl rfl

/-- `EVP_PKEY_set1_engine` fails for a pkey whose algorithm is neither RSA nor
EC: the engine's discovery callback offers no method for it. -/
theorem set1_engine_unsupported (st : Globals) (pk : EVP_PKEY_t)
    (h1 : pk.id ≠ EVP_PKEY_RSA) (h2 : pk.id ≠ EVP_PKEY_EC) :
    EVP_PKEY_set1_engine st pk = none := by
  unfold EVP_PKEY_set1_engine
  split
  · rfl
  · simp [EngineGetMethods, h1, h2]

/-- `ConfigureCertAndCustomKey` returns null for a certificate whose public-key
family is neither RSA nor EC. -/
theorem configure_unsupported (o : Oracle) (st : Globals) (key : CustomKey) (c : X509Cert)
    (h1 : c.pubkey.id ≠ EVP_PKEY_RSA) (h2 : c.pubkey.id ≠ EVP_PKEY_EC) :
    ConfigureCertAndCustomKey o st key (some c) = CRes.ok none := by
  simp only [ConfigureCertAndCustomKey]
  rw [set1_engine_unsupported st c.pubkey h1 h2]
  repeat' split
  all_goals simp_all

/-- `ServeTLS` fails without touching the context for a certificate whose
public-key family is neither RSA nor EC. -/
theorem serveTLS_unsupported (o : Oracle) (st : Globals) (key : CustomKey) (cert : String)
    (ctx : SSL_CTX_t) (c : X509Cert) (hp : o.pemParse cert = some c)
    (h1 : c.pubkey.id ≠ EVP_PKEY_RSA) (h2 : c.pubkey.id ≠ EVP_PKEY_EC) :
    ServeTLS o st key cert ctx = CRes.ok (false, ctx) := by
  simp only [ServeTLS]
  rw [hp, configure_unsupported o st key c h1 h2]
  split <;> rfl

/-- C4: binding a certificate whose public-key family is neither RSA-family nor
EC-family makes `OffloadSigning` return 0 with the TLS context unchanged —
no key, certificate or protocol-version installation is observable. -/
theorem unsupported_family_no_mutation (o : Oracle) (env : Option String) (key : CustomKey)
    (cert : String) (ctx : SSL_CTX_t) (st : Globals) (c : X509Cert)
    (hp : o.pemParse cert = some c)
    (h1 : c.pubkey.id ≠ EVP_PKEY_RSA) (h2 : c.pubkey.id ≠ EVP_PKEY_EC) :
    retOf (OffloadSigning o env key cert ctx st) = some 0 ∧
    ctxOf (OffloadSigning o env key cert ctx st) = some ctx := by
  simp only [OffloadSigning]
  split
  · unfold OffloadServe
    rw [serveTLS_unsupported o _ key cert ctx c hp h1 h2]
    exact ⟨rfl, rfl⟩
  · split
    · split
      · unfold OffloadServe
        rw [serveTLS_unsupported o _ key cert ctx c hp h1 h2]
        exact ⟨rfl, rfl⟩
      · exact ⟨rfl, rfl⟩
    · exact ⟨rfl, rfl⟩

/-- C4 witness: a concrete certificate with key family 0 (neither RSA's 6 nor
EC's 408) yields return 0 and the untouched empty context. -/
theorem unsupported_family_no_mutation_witness :
    retOf (OffloadSigning oGoodX none hAW "cert" ctx0 gReady) = some 0 ∧
    ctxOf (OffloadSigning oGoodX none hAW "cert" ctx0 gReady) = some ctx0 :=
  unsupported_family_no_mutation oGoodX none hAW "cert" ctx0 gReady certXW rfl
    (by decide) (by decide)

/-- A successful `SetCustomKey` leaves the pkey's engine reference unchanged. -/
theorem setCustomKey_engine (st : Globals) (pk : EVP_PKEY_t) (key : CustomKey)
    (pk' : EVP_PKEY_t) (h : SetCustomKey st pk key = some pk') : pk'.engine = pk.engine := by
  unfold SetCustomKey at h
  split at h
  · split at h
    · exact Option.noConfusion h
    · rw [← Option.some_injective _ h]
  · split at h
    · split at h
      · exact Option.noConfusion h
      · rw [← Option.some_injective _ h]
    · exact Option.noConfusion h

/-- A successful `EVP_PKEY_set1_engine` sets the engine reference and changes
nothing else about the pkey. -/
theorem set1_engine_fields (st : Globals) (pk : EVP_PKEY_t) (pk1 : EVP_PKEY_t)
    (h : EVP_PKEY_set1_engine st pk = some pk1) :
    pk1.engine = some () ∧ pk1.id = pk.id ∧ pk1.rsa = pk.rsa ∧ pk1.ec = pk.ec := by
  unfold EVP_PKEY_set1_engine at h
  split at h
  · exact Option.noConfusion h
  · split at h
    · rw [← Option.some_injective _ h]
      exact ⟨rfl, rfl, rfl, rfl⟩
    · exact Option.noConfusion h

/-- A wrapped key produced by `ConfigureCertAndCustomKey` carries the attached
`CustomKey` (readable back through `GetCustomKey`) and the engine reference. -/
theorem configure_some_props (o : Oracle) (st : Globals) (key : CustomKey) (c : X509Cert)
    (wrapped : EVP_PKEY_t)
    (h : ConfigureCertAndCustomKey o st key (some c) = CRes.ok (some wrapped)) :
    GetCustomKey st wrapped = some key ∧ wrapped.engine = some () := by
  simp only [ConfigureCertAndCustomKey] at h
  split at h
  case isFalse => simp at h
  split at h
  case isFalse => simp at h
  split at h
  case isFalse => simp at h
  split at h
  · simp at h
  · rename_i pk1 hset1
    split at h
    · simp at h
    · rename_i pk2 hset2
      simp only [CRes.ok.injEq, Option.some.injEq] at h
      subst h
      refine ⟨getCustomKey_after_set st pk1 key pk2 hset2, ?_⟩
      rw [setCustomKey_engine st pk1 key pk2 hset2]
      exact (set1_engine_fields st c.pubkey pk1 hset1).1

/-- A `ServeTLS` success installs the wrapped key and the parsed certificate
into the context and raises its minimum protocol version to TLS 1.3. -/
theorem serveTLS_true_props (o : Oracle) (st : Globals) (key : CustomKey) (cert : String)
    (ctx ctx' : SSL_CTX_t)
    (h : ServeTLS o st key cert ctx = CRes.ok (true, ctx')) :
    ctx'.minProto = TLS1_3_VERSION ∧
    ctx'.cert = o.pemParse cert ∧ ctx'.cert.isSome = true ∧
    (ctx'.privKey.elim False fun pk => GetCustomKey st pk = some key ∧ pk.engine = some ()) := by
  simp only [ServeTLS] at h
  split at h
  case isFalse => simp at h
  rcases hx : o.pemParse cert with _ | c
  · rw [hx] at h
    simp only [ConfigureCertAndCustomKey] at h
    exact CRes.noConfusion h
  · rw [hx] at h
    split at h
    · exact CRes.noConfusion h
    · simp at h
    · rename_i wrapped hconf
      split at h
      case isFalse => simp at h
      split at h
      case isFalse => simp at h
      split at h
      case isFalse => simp at h
      simp only [CRes.ok.injEq, Prod.mk.injEq, true_and] at h
      rw [← h]
      have hc := configure_some_props o st key c wrapped hconf
      exact ⟨rfl, rfl, rfl, hc⟩

/-- An `OffloadSigning` return of 1 comes from `OffloadServe` on the final
globals, whose `ServeTLS` returned success with the same context. -/
theorem offloadServe_one (o : Oracle) (s : Globals) (key : CustomKey) (cert : String)
    (ctx : SSL_CTX_t) (st' : Globals) (ctx' : SSL_CTX_t)
    (h : OffloadServe o s key cert ctx = CRes.ok (1, st', ctx')) :
    st' = s ∧ ServeTLS o s key cert ctx = CRes.ok (true, ctx') := by
  unfold OffloadServe at h
  split at h
  · exact CRes.noConfusion h
  · rename_i ctx1 heq
    simp only [CRes.ok.injEq, Prod.mk.injEq, true_and] at h
    obtain ⟨h1, h2⟩ := h
    subst h2
    exact ⟨h1.symm, heq⟩
  · simp at h

/-- `OffloadSigning` returning 1 means `ServeTLS` succeeded with the returned
globals and context. -/
theorem offload_one_serve (o : Oracle) (env : Option String) (key : CustomKey) (cert : String)
    (ctx : SSL_CTX_t) (st : Globals) (st' : Globals) (ctx' : SSL_CTX_t)
    (h : OffloadSigning o env key cert ctx st = CRes.ok (1, st', ctx')) :
    ServeTLS o st' key cert ctx = CRes.ok (true, ctx') := by
  simp only [OffloadSigning] at h
  split at h
  · obtain ⟨h1, h2⟩ := offloadServe_one _ _ _ _ _ _ _ h
    subst h1
    exact h2
  · split at h
    · split at h
      · obtain ⟨h1, h2⟩ := offloadServe_one _ _ _ _ _ _ _ h
        subst h1
        exact h2
      · simp at h
    · simp at h

/-- C3: whenever `OffloadSigning` returns success, the context's minimum
protocol version has been raised to TLS 1.3, the parsed certificate is
installed, and the installed private key is the wrapped key bound to the
engine with the caller's `CustomKey` attached. -/
theorem offload_success_props (o : Oracle) (env : Option String) (key : CustomKey)
    (cert : String) (ctx : SSL_CTX_t) (st : Globals) (st' : Globals) (ctx' : SSL_CTX_t)
    (h : OffloadSigning o env key cert ctx st = CRes.ok (1, st', ctx')) :
    ctx'.minProto = TLS1_3_VERSION ∧
    ctx'.cert = o.pemParse cert ∧ ctx'.cert.isSome = true ∧
    (ctx'.privKey.elim False fun pk => GetCustomKey st' pk = some key ∧ pk.engine = some ()) :=
  serveTLS_true_props o st' key cert ctx ctx' (offload_one_serve o env key cert ctx st st' ctx' h)

/-- C3 witness: the concrete successful bind raised the minimum protocol
version to TLS 1.3. -/
theorem offload_success_props_witness : c3ctx.minProto = TLS1_3_VERSION :=
  (offload_success_props oGoodEC (some "log") hAW "mycert" ctx0 gReady c3st c3ctx rfl).1
